import Mathlib

/-!
Shallow embedding of the taint-propagation dataflow analysis in
src/src/analysis/taint_analysis.rs.

The abstract state is the set of possibly-tainted local variables
(the Rust code uses a BitSet of Local indices; here a Finset Nat).
The transfer functions below mirror the Rust functions of the same
names line by line.  Panics are modelled as Option.none; diagnostic
emission is modelled as the list of findings produced by a call.
-/

namespace TaintAnalysis

/-- Local variables of a MIR body are integer-indexed slots; a Place here
keeps only its base local, the single field the transfer functions read. -/
structure Place where
  «local» : Nat
deriving DecidableEq

/-- Operand of a MIR rvalue or call: a copy of a place, a move of a place,
or a constant literal (the string is the constant rendered as text, which
for a function-item constant is the callee name used by t_visit_call). -/
inductive Operand
  | Copy (p : Place)
  | Move (p : Place)
  | Constant (c : String)
deriving DecidableEq

/-- Mirrors rustc MIR Operand::constant: some constant for a Constant
operand, none for Copy and Move. -/
def Operand.constant : Operand → Option String
  | Operand.Constant c => some c
  | Operand.Copy _ => none
  | Operand.Move _ => none

/-- Mirrors rustc MIR Operand::place: the place of a Copy or Move operand,
none for a Constant. -/
def Operand.place : Operand → Option Place
  | Operand.Copy p => some p
  | Operand.Move p => some p
  | Operand.Constant _ => none

/-- Right-hand side of a MIR assignment.  The nine opaque shapes at the end
carry payloads in rustc (places, types, aggregate fields) that the Rust
transfer function matches only with wildcards and never reads, so they are
omitted here. -/
inductive Rvalue
  | Use (op : Operand)
  | UnaryOp (un : Nat) (op : Operand)
  | BinaryOp (bin : Nat) (a : Operand) (b : Operand)
  | CheckedBinaryOp (bin : Nat) (a : Operand) (b : Operand)
  | Repeat
  | Ref
  | ThreadLocalRef
  | AddressOf
  | Len
  | Cast
  | NullaryOp
  | Discriminant
  | Aggregate
deriving DecidableEq

/-- Statement kinds: an assignment, or any of the remaining MIR statement
kinds, which visit_statement matches with a single wildcard arm. -/
inductive StatementKind
  | Assign (place : Place) (rvalue : Rvalue)
  | Other
deriving DecidableEq

/-- Terminator kinds as matched by visit_terminator.  Goto carries its
target block, SwitchInt its discriminant and targets, Assert its condition
and target, Call its callee operand, argument operands, optional
destination (place and continuation block) and the call span; OtherTerm
stands for the remaining kinds, matched by the wildcard arm. -/
inductive TerminatorKind
  | Goto (target : Nat)
  | SwitchInt (discr : Operand) (targets : List Nat)
  | Return
  | Call (func : Operand) (args : List Operand)
      (destination : Option (Place × Nat)) (fn_span : Nat)
  | Assert (cond : Operand) (target : Nat)
  | OtherTerm
deriving DecidableEq

/-- Diagnostic finding, mirroring errors::TaintedSink: offending callee
name and the span of the call. -/
structure Finding where
  fn_name : String
  span : Nat
deriving DecidableEq

/-- Call role as classified by the external catalog. -/
inductive Role
  | Source
  | Sink
  | Sanitizer
deriving DecidableEq

/-- Modelled from the spec: the Call Role Catalog (AttrInfo in crate::eval,
whose source is not part of src/) is an external lookup from callee name to
role — lookup(callee_name) being Source, Sink, Sanitizer or None. -/
def AttrInfo := String → Option Role

/-- Modelled from the spec: TaintDomain::mark_tainted of taint_domain.rs
(not part of src/) adds v to the set of tainted variables. -/
def mark_tainted (s : Finset Nat) (v : Nat) : Finset Nat := insert v s

/-- Modelled from the spec: TaintDomain::mark_untainted of taint_domain.rs
(not part of src/) removes v from the set of tainted variables (kill). -/
def mark_untainted (s : Finset Nat) (v : Nat) : Finset Nat := s.erase v

/-- Modelled from the spec: TaintDomain::is_tainted of taint_domain.rs
(not part of src/) is the membership test. -/
def is_tainted (s : Finset Nat) (v : Nat) : Bool := decide (v ∈ s)

/-- Modelled from the spec: TaintDomain::propagate of taint_domain.rs
(not part of src/) sets the membership of dst equal to the current
membership of src (copies status; does not union). -/
def propagate (s : Finset Nat) (src dst : Nat) : Finset Nat :=
  if src ∈ s then mark_tainted s dst else mark_untainted s dst

/-- TransferFunction::t_visit_assign, lines 151 to 193 of
taint_analysis.rs: the per-assignment taint rule, dispatching on the
shape of the rvalue. -/
def t_visit_assign (s : Finset Nat) (place : Place) (rvalue : Rvalue) :
    Finset Nat :=
  match rvalue with
  | Rvalue.Use (Operand.Constant _) | Rvalue.UnaryOp _ (Operand.Constant _) =>
      mark_untainted s place.«local»
  | Rvalue.Use (Operand.Copy f) | Rvalue.Use (Operand.Move f) =>
      propagate s f.«local» place.«local»
  | Rvalue.BinaryOp _ oa ob | Rvalue.CheckedBinaryOp _ oa ob =>
      match oa, ob with
      | Operand.Constant _, Operand.Constant _ =>
          mark_untainted s place.«local»
      | Operand.Copy a, Operand.Copy b | Operand.Copy a, Operand.Move b
      | Operand.Move a, Operand.Copy b | Operand.Move a, Operand.Move b =>
          if is_tainted s a.«local» || is_tainted s b.«local» then
            mark_tainted s place.«local»
          else
            mark_untainted s place.«local»
      | Operand.Copy p, Operand.Constant _ | Operand.Move p, Operand.Constant _
      | Operand.Constant _, Operand.Copy p | Operand.Constant _, Operand.Move p =>
          propagate s p.«local» place.«local»
  | Rvalue.UnaryOp _ (Operand.Move p) | Rvalue.UnaryOp _ (Operand.Copy p) =>
      propagate s p.«local» place.«local»
  | Rvalue.Repeat => s
  | Rvalue.Ref => s
  | Rvalue.ThreadLocalRef => s
  | Rvalue.AddressOf => s
  | Rvalue.Len => s
  | Rvalue.Cast => s
  | Rvalue.NullaryOp => s
  | Rvalue.Discriminant => s
  | Rvalue.Aggregate => s

/-- Visitor::visit_statement, lines 108 to 121: assignments go to
t_visit_assign, every other statement kind is ignored. -/
def visit_statement (s : Finset Nat) (st : StatementKind) : Finset Nat :=
  match st with
  | StatementKind.Assign place rvalue => t_visit_assign s place rvalue
  | StatementKind.Other => s

/-- TransferFunction::t_visit_call, lines 195 to 209: resolves the callee
name via Operand::constant, panicking (modelled as none) when the callee
operand is not a constant.  The role dispatch on the catalog is an
unimplemented TODO in the source, so the state is returned unchanged and
no finding is emitted, whatever the catalog says. -/
def t_visit_call (info : AttrInfo) (s : Finset Nat) (func : Operand)
    (args : List Operand) (destination : Option (Place × Nat)) (span : Nat) :
    Option (Finset Nat × List Finding) :=
  match func.constant with
  | none => none
  | some _name => some (s, [])

/-- TransferFunction::t_visit_source_destination, lines 211 to 215: marks
the call destination, when present, as tainted.  Defined in the source but
never reached from t_visit_call. -/
def t_visit_source_destination (s : Finset Nat)
    (destination : Option (Place × Nat)) : Finset Nat :=
  match destination with
  | some (place, _) => mark_tainted s place.«local»
  | none => s

/-- TransferFunction::t_visit_sink, lines 217 to 230: when any argument
operand denotes a place whose local is tainted, emits one TaintedSink
finding with the callee name and the call span.  Defined in the source but
never reached from t_visit_call. -/
def t_visit_sink (s : Finset Nat) (name : String) (args : List Operand)
    (span : Nat) : List Finding :=
  if args.any (fun op =>
      match op.place with
      | some place => is_tainted s place.«local»
      | none => false) then
    [⟨name, span⟩]
  else
    []

/-- Visitor::visit_terminator, lines 123 to 142: Goto, SwitchInt, Return,
Assert and the wildcard arm are no-ops; Call goes to t_visit_call. -/
def visit_terminator (info : AttrInfo) (s : Finset Nat)
    (t : TerminatorKind) : Option (Finset Nat × List Finding) :=
  match t with
  | TerminatorKind.Goto _ => some (s, [])
  | TerminatorKind.SwitchInt _ _ => some (s, [])
  | TerminatorKind.Return => some (s, [])
  | TerminatorKind.Call func args destination fn_span =>
      t_visit_call info s func args destination fn_span
  | TerminatorKind.Assert _ _ => some (s, [])
  | TerminatorKind.OtherTerm => some (s, [])

/-- Analysis::apply_call_return_effect, lines 69 to 78: the dedicated
call-return hook is an explicit no-op in the source (the body is the
comment: do nothing). -/
def apply_call_return_effect (s : Finset Nat) (block : Nat) (func : Operand)
    (args : List Operand) (return_place : Place) : Finset Nat := s

/-- Rvalue shapes whose right-hand side contains exactly one variable
operand src: use of a copy or move of src, a unary op on src, and a binary
or checked-binary op of src with a constant in either operand order. -/
inductive SingleVarRhs (src : Place) : Rvalue → Prop
  | use_copy : SingleVarRhs src (Rvalue.Use (Operand.Copy src))
  | use_move : SingleVarRhs src (Rvalue.Use (Operand.Move src))
  | un_copy (un : Nat) : SingleVarRhs src (Rvalue.UnaryOp un (Operand.Copy src))
  | un_move (un : Nat) : SingleVarRhs src (Rvalue.UnaryOp un (Operand.Move src))
  | bin_copy_const (bin : Nat) (c : String) :
      SingleVarRhs src (Rvalue.BinaryOp bin (Operand.Copy src) (Operand.Constant c))
  | bin_move_const (bin : Nat) (c : String) :
      SingleVarRhs src (Rvalue.BinaryOp bin (Operand.Move src) (Operand.Constant c))
  | bin_const_copy (bin : Nat) (c : String) :
      SingleVarRhs src (Rvalue.BinaryOp bin (Operand.Constant c) (Operand.Copy src))
  | bin_const_move (bin : Nat) (c : String) :
      SingleVarRhs src (Rvalue.BinaryOp bin (Operand.Constant c) (Operand.Move src))
  | chk_copy_const (bin : Nat) (c : String) :
      SingleVarRhs src (Rvalue.CheckedBinaryOp bin (Operand.Copy src) (Operand.Constant c))
  | chk_move_const (bin : Nat) (c : String) :
      SingleVarRhs src (Rvalue.CheckedBinaryOp bin (Operand.Move src) (Operand.Constant c))
  | chk_const_copy (bin : Nat) (c : String) :
      SingleVarRhs src (Rvalue.CheckedBinaryOp bin (Operand.Constant c) (Operand.Copy src))
  | chk_const_move (bin : Nat) (c : String) :
      SingleVarRhs src (Rvalue.CheckedBinaryOp bin (Operand.Constant c) (Operand.Move src))

/-- A catalog classifying the function named my_sink as a Sink. -/
def sinkCatalog : AttrInfo :=
  fun name => if name = "my_sink" then some Role.Sink else none

/-- A catalog classifying the function named my_source as a Source. -/
def sourceCatalog : AttrInfo :=
  fun name => if name = "my_source" then some Role.Source else none

/-- A catalog classifying the function named my_clean as a Sanitizer. -/
def sanitizerCatalog : AttrInfo :=
  fun name => if name = "my_clean" then some Role.Sanitizer else none

/-- Marking a variable tainted makes it tainted. -/
theorem is_tainted_mark_tainted_self (s : Finset Nat) (v : Nat) :
    is_tainted (mark_tainted s v) v = true := by
  simp [is_tainted, mark_tainted]

/-- Marking a variable untainted makes it untainted. -/
theorem is_tainted_mark_untainted_self (s : Finset Nat) (v : Nat) :
    is_tainted (mark_untainted s v) v = false := by
  simp [is_tainted, mark_untainted]

/-- Propagating sets the destination status to the source status. -/
theorem is_tainted_propagate_self (s : Finset Nat) (src dst : Nat) :
    is_tainted (propagate s src dst) dst = is_tainted s src := by
  by_cases h : src ∈ s <;>
    simp [propagate, h, is_tainted, mark_tainted, mark_untainted]

/-- Marking w tainted does not change the status of a different v. -/
theorem is_tainted_mark_tainted_frame (s : Finset Nat) (w v : Nat)
    (h : v ≠ w) : is_tainted (mark_tainted s w) v = is_tainted s v := by
  simp [is_tainted, mark_tainted, Finset.mem_insert, h]

/-- Marking w untainted does not change the status of a different v. -/
theorem is_tainted_mark_untainted_frame (s : Finset Nat) (w v : Nat)
    (h : v ≠ w) : is_tainted (mark_untainted s w) v = is_tainted s v := by
  simp [is_tainted, mark_untainted, Finset.mem_erase, h]

/-- Propagating into w does not change the status of a different v. -/
theorem is_tainted_propagate_frame (s : Finset Nat) (src w v : Nat)
    (h : v ≠ w) : is_tainted (propagate s src w) v = is_tainted s v := by
  by_cases hsrc : src ∈ s <;>
    simp [propagate, hsrc, is_tainted_mark_tainted_frame s w v h,
      is_tainted_mark_untainted_frame s w v h]

/-- Conditionally marking v from a boolean leaves v with that boolean. -/
theorem is_tainted_cond_self (s : Finset Nat) (c : Bool) (v : Nat) :
    is_tainted (if c then mark_tainted s v else mark_untainted s v) v = c := by
  cases c <;>
    simp [is_tainted_mark_tainted_self, is_tainted_mark_untainted_self]

/-- Conditionally marking w does not change the status of a different v. -/
theorem is_tainted_cond_frame (s : Finset Nat) (c : Bool) (w v : Nat)
    (h : v ≠ w) :
    is_tainted (if c then mark_tainted s w else mark_untainted s w) v
      = is_tainted s v := by
  cases c <;>
    simp [is_tainted_mark_tainted_frame s w v h,
      is_tainted_mark_untainted_frame s w v h]

/-- Claim C4: assigning a constant expression — Use of a constant, a unary
op on a constant, or a binary or checked-binary op on two constants — to
dst leaves dst untainted after the statement transfer function, regardless
of the prior state. -/
theorem constant_assignment_clears (s : Finset Nat) (dst : Place)
    (un bin : Nat) (c c1 c2 : String) :
    is_tainted (t_visit_assign s dst (Rvalue.Use (Operand.Constant c)))
        dst.«local» = false
    ∧ is_tainted (t_visit_assign s dst
        (Rvalue.UnaryOp un (Operand.Constant c))) dst.«local» = false
    ∧ is_tainted (t_visit_assign s dst
        (Rvalue.BinaryOp bin (Operand.Constant c1) (Operand.Constant c2)))
        dst.«local» = false
    ∧ is_tainted (t_visit_assign s dst
        (Rvalue.CheckedBinaryOp bin (Operand.Constant c1) (Operand.Constant c2)))
        dst.«local» = false := by
  refine ⟨?_, ?_, ?_, ?_⟩ <;>
    simp [t_visit_assign, is_tainted_mark_untainted_self]

/-- Claim C5: a binary or checked-binary op whose two operands are both
variables (Copy or Move) leaves dst tainted exactly when either operand
was tainted in the pre-state. -/
theorem binary_op_taint_union (s : Finset Nat) (dst a b : Place) (bin : Nat)
    (oa ob : Operand)
    (ha : oa = Operand.Copy a ∨ oa = Operand.Move a)
    (hb : ob = Operand.Copy b ∨ ob = Operand.Move b) :
    is_tainted (t_visit_assign s dst (Rvalue.BinaryOp bin oa ob)) dst.«local»
      = (is_tainted s a.«local» || is_tainted s b.«local»)
    ∧ is_tainted (t_visit_assign s dst (Rvalue.CheckedBinaryOp bin oa ob))
        dst.«local»
      = (is_tainted s a.«local» || is_tainted s b.«local») := by
  rcases ha with rfl | rfl <;> rcases hb with rfl | rfl <;>
    exact ⟨is_tainted_cond_self s _ dst.«local»,
      is_tainted_cond_self s _ dst.«local»⟩

/-- Claim C5 witness at a concrete input: state with local 1 tainted,
dst local 0, operands Copy 1 and Move 2. -/
theorem binary_op_taint_union_witness :
    is_tainted (t_visit_assign {1} ⟨0⟩
        (Rvalue.BinaryOp 0 (Operand.Copy ⟨1⟩) (Operand.Move ⟨2⟩))) 0
      = (is_tainted {1} 1 || is_tainted {1} 2)
    ∧ is_tainted (t_visit_assign {1} ⟨0⟩
        (Rvalue.CheckedBinaryOp 0 (Operand.Copy ⟨1⟩) (Operand.Move ⟨2⟩))) 0
      = (is_tainted {1} 1 || is_tainted {1} 2) :=
  binary_op_taint_union {1} ⟨0⟩ ⟨1⟩ ⟨2⟩ 0 (Operand.Copy ⟨1⟩)
    (Operand.Move ⟨2⟩) (Or.inl rfl) (Or.inr rfl)

/-- Claim C6: an assignment whose right-hand side contains exactly one
variable operand src copies the pre-state status of src into dst,
overwriting the prior status of dst; Copy and Move behave identically. -/
theorem single_var_rhs_copies_status (s : Finset Nat) (dst src : Place)
    (rv : Rvalue) (h : SingleVarRhs src rv) :
    is_tainted (t_visit_assign s dst rv) dst.«local»
      = is_tainted s src.«local» := by
  cases h <;> exact is_tainted_propagate_self s src.«local» dst.«local»

/-- Claim C6 witness at a concrete input: dst local 0 previously tainted,
src local 1 untainted, rvalue Use of a Copy of src. -/
theorem single_var_rhs_copies_status_witness :
    is_tainted (t_visit_assign {0} ⟨0⟩ (Rvalue.Use (Operand.Copy ⟨1⟩))) 0
      = is_tainted {0} 1 :=
  single_var_rhs_copies_status {0} ⟨0⟩ ⟨1⟩ (Rvalue.Use (Operand.Copy ⟨1⟩))
    SingleVarRhs.use_copy

/-- Claim C7: each of the nine opaque rvalue shapes leaves the whole taint
state unchanged, hence also the destination status. -/
theorem opaque_rvalue_no_effect (s : Finset Nat) (dst : Place) :
    t_visit_assign s dst Rvalue.Repeat = s
    ∧ t_visit_assign s dst Rvalue.Ref = s
    ∧ t_visit_assign s dst Rvalue.ThreadLocalRef = s
    ∧ t_visit_assign s dst Rvalue.AddressOf = s
    ∧ t_visit_assign s dst Rvalue.Len = s
    ∧ t_visit_assign s dst Rvalue.Cast = s
    ∧ t_visit_assign s dst Rvalue.NullaryOp = s
    ∧ t_visit_assign s dst Rvalue.Discriminant = s
    ∧ t_visit_assign s dst Rvalue.Aggregate = s :=
  ⟨rfl, rfl, rfl, rfl, rfl, rfl, rfl, rfl, rfl⟩

/-- Claim C8: the call terminator transfer function fails (none, modelling
the expect panic) exactly when the callee operand is not a constant; for a
constant callee it returns normally. -/
theorem call_requires_constant_callee (info : AttrInfo) (s : Finset Nat)
    (func : Operand) (args : List Operand)
    (destination : Option (Place × Nat)) (fn_span : Nat) :
    (visit_terminator info s
        (TerminatorKind.Call func args destination fn_span) = none
      ↔ Operand.constant func = none) := by
  cases func <;> simp [visit_terminator, t_visit_call, Operand.constant]

/-- Claim C9: Goto, SwitchInt, Return and Assert terminators, and
non-assignment statements, leave the taint state unchanged and emit no
finding. -/
theorem control_transfer_no_effect (info : AttrInfo) (s : Finset Nat)
    (target : Nat) (discr : Operand) (targets : List Nat) (cond : Operand)
    (t2 : Nat) :
    visit_terminator info s (TerminatorKind.Goto target) = some (s, [])
    ∧ visit_terminator info s (TerminatorKind.SwitchInt discr targets)
        = some (s, [])
    ∧ visit_terminator info s TerminatorKind.Return = some (s, [])
    ∧ visit_terminator info s (TerminatorKind.Assert cond t2) = some (s, [])
    ∧ visit_statement s StatementKind.Other = s :=
  ⟨rfl, rfl, rfl, rfl, rfl⟩

/-- Claim C10: an assignment changes the taint status of at most its own
destination local: any other local keeps its pre-state status under
t_visit_assign, for every rvalue shape. -/
theorem assign_frame (s : Finset Nat) (dst : Place) (rv : Rvalue) (v : Nat)
    (h : v ≠ dst.«local») :
    is_tainted (t_visit_assign s dst rv) v = is_tainted s v := by
  cases rv with
  | Use op =>
      cases op <;>
        simp [t_visit_assign, is_tainted_propagate_frame _ _ _ _ h,
          is_tainted_mark_untainted_frame _ _ _ h]
  | UnaryOp un op =>
      cases op <;>
        simp [t_visit_assign, is_tainted_propagate_frame _ _ _ _ h,
          is_tainted_mark_untainted_frame _ _ _ h]
  | BinaryOp bin oa ob =>
      cases oa <;> cases ob <;>
        simp [t_visit_assign, is_tainted_propagate_frame _ _ _ _ h,
          is_tainted_mark_untainted_frame _ _ _ h] <;>
        split <;>
        simp [is_tainted_mark_tainted_frame _ _ _ h,
          is_tainted_mark_untainted_frame _ _ _ h]
  | CheckedBinaryOp bin oa ob =>
      cases oa <;> cases ob <;>
        simp [t_visit_assign, is_tainted_propagate_frame _ _ _ _ h,
          is_tainted_mark_untainted_frame _ _ _ h] <;>
        split <;>
        simp [is_tainted_mark_tainted_frame _ _ _ h,
          is_tainted_mark_untainted_frame _ _ _ h]
  | Repeat => rfl
  | Ref => rfl
  | ThreadLocalRef => rfl
  | AddressOf => rfl
  | Len => rfl
  | Cast => rfl
  | NullaryOp => rfl
  | Discriminant => rfl
  | Aggregate => rfl

/-- Claim C10 witness at a concrete input: assigning a constant to local 0
leaves the status of local 2 unchanged. -/
theorem assign_frame_witness :
    (2 ≠ (⟨0⟩ : Place).«local»)
    ∧ is_tainted (t_visit_assign {2} ⟨0⟩
        (Rvalue.Use (Operand.Constant "k"))) 2 = is_tainted {2} 2 :=
  ⟨by decide, assign_frame {2} ⟨0⟩ (Rvalue.Use (Operand.Constant "k")) 2
    (by decide)⟩

/-- Claim C1 divergence: a call to my_sink, cataloged as a Sink, with the
tainted local 1 as argument emits no finding and t_visit_call returns the
state unchanged with an empty finding list, because the role dispatch in
t_visit_call is an unimplemented TODO; the unreached handler t_visit_sink
would have emitted exactly the one finding the claim describes. -/
theorem sink_call_emits_no_finding :
    sinkCatalog "my_sink" = some Role.Sink
    ∧ is_tainted {1} 1 = true
    ∧ t_visit_call sinkCatalog {1} (Operand.Constant "my_sink")
        [Operand.Copy ⟨1⟩] none 7 = some ({1}, [])
    ∧ t_visit_sink {1} "my_sink" [Operand.Copy ⟨1⟩] 7
        = [⟨"my_sink", 7⟩] := by
  refine ⟨by decide, by decide, rfl, by decide⟩

/-- Claim C2 divergence: a call to my_source, cataloged as a Source, with
destination local 0 leaves local 0 untainted both after t_visit_call and
after apply_call_return_effect (the call-return hook is a no-op), because
the role dispatch is an unimplemented TODO; the unreached handler
t_visit_source_destination would have tainted it. -/
theorem source_call_leaves_destination_untainted :
    sourceCatalog "my_source" = some Role.Source
    ∧ t_visit_call sourceCatalog ∅ (Operand.Constant "my_source") []
        (some (⟨0⟩, 1)) 3 = some (∅, [])
    ∧ is_tainted (apply_call_return_effect ∅ 1
        (Operand.Constant "my_source") [] ⟨0⟩) 0 = false
    ∧ is_tainted (t_visit_source_destination ∅ (some (⟨0⟩, 1))) 0
        = true := by
  refine ⟨by decide, rfl, by decide, by decide⟩

/-- Claim C3 divergence: a call to my_clean, cataloged as a Sanitizer, with
tainted argument local 1 and previously tainted destination local 0 leaves
local 0 tainted at the call-return point, because neither t_visit_call nor
the no-op apply_call_return_effect ever marks the destination untainted. -/
theorem sanitizer_call_leaves_destination_tainted :
    sanitizerCatalog "my_clean" = some Role.Sanitizer
    ∧ is_tainted {0, 1} 1 = true
    ∧ t_visit_call sanitizerCatalog {0, 1} (Operand.Constant "my_clean")
        [Operand.Copy ⟨1⟩] (some (⟨0⟩, 2)) 4 = some ({0, 1}, [])
    ∧ is_tainted (apply_call_return_effect {0, 1} 2
        (Operand.Constant "my_clean") [Operand.Copy ⟨1⟩] ⟨0⟩) 0 = true := by
  refine ⟨by decide, by decide, rfl, by decide⟩

end TaintAnalysis
